import Mathlib

/-!
Verification development for the JSON-schema generator pipeline
(`scripts/lib`, `scripts/models`): a shallow embedding of the string
transforms, the table validator, the storage-type mapper, the
validation-schema (Zod) generator and the relationship resolution of the
types generator, followed by theorems about the specified properties.

Modelling conventions:
* JSON/TypeScript records become structures; optional (possibly `undefined`)
  fields become `Option`; JavaScript truthiness is modelled per type
  (`Option Bool` is truthy iff `some true`, an optional number iff present
  and nonzero, an optional string iff present and nonempty).
* JSON numeric literals are modelled as `Int` (the descriptors in `db/`
  only carry integral numbers); template-literal interpolation of a number
  is `Int` printing, which agrees with JavaScript on integers.
* Enum configurations are modelled by their name list: every generator
  under verification reads only `Object.keys(enums)`.
* Case conversions model the ASCII behaviour of the JavaScript regexes,
  which is exact for the identifier-safe names the schema model requires.
-/

/-- A JSON scalar as it can appear in a column's `default` field
(`number | string | boolean | null`). `undefined` is `Option.none` one
level up. -/
inductive JsonValue where
  | str (s : String)
  | num (n : Int)
  | bool (b : Bool)
  | null
deriving DecidableEq

/-- Template-literal rendering of a `default` value that is neither a
string nor a boolean (JavaScript string coercion). -/
def JsonValue.render : JsonValue → String
  | .str s => s
  | .num n => toString n
  | .bool b => if b then "true" else "false"
  | .null => "null"

/-- `dbConstraints.references` of a column (`config.ts`). -/
structure ColumnReferences where
  table : String
  column : String
  onDelete : Option String
  onUpdate : Option String
deriving DecidableEq

/-- `validation` rules of a column (`config.ts`, `ColumnValidation`). -/
structure ColumnValidation where
  required : Option Bool
  min : Option Int
  max : Option Int
  pattern : Option String
  email : Option Bool
  url : Option Bool
deriving DecidableEq

/-- `dbConstraints` of a column (`config.ts`, `ColumnConstraints`). -/
structure ColumnConstraints where
  type : String
  length : Option Int
  precision : Option Int
  scale : Option Int
  nullable : Option Bool
  defaultValue : Option JsonValue
  primaryKey : Option Bool
  unique : Option Bool
  autoIncrement : Option Bool
  references : Option ColumnReferences
deriving DecidableEq

/-- One column's configuration (`config.ts`, `ColumnConfig`; the UI
metadata is not read by any generator under verification). -/
structure ColumnConfig where
  dbConstraints : ColumnConstraints
  validation : Option ColumnValidation
deriving DecidableEq

/-- A named index (`config.ts`, `IndexConfig`). -/
structure IndexConfig where
  columns : List String
  unique : Option Bool
deriving DecidableEq

/-- A declared relationship (`config.ts`, `RelationshipConfig`). -/
structure RelationshipConfig where
  type : String
  table : String
deriving DecidableEq

/-- A table descriptor as the generators consume it (`config.ts`,
`TableConfig`): the column record is an insertion-ordered association
list, as `Object.entries` iterates it. -/
structure TableConfig where
  tableName : String
  displayName : String
  columns : List (String × ColumnConfig)
  indexes : Option (List (String × IndexConfig))
  relationships : Option (List (String × RelationshipConfig))
deriving DecidableEq

/-- A table descriptor as it stands right after `JSON.parse`, before any
validation: the `columns` record may be absent at runtime even though the
TypeScript interface declares it, since `readJsonFile` only casts. -/
structure RawTableConfig where
  tableName : String
  columns : Option (List (String × ColumnConfig))
deriving DecidableEq

/-- The enum configurations, by their declaration keys
(`Object.keys(enums)` in declaration order). -/
abbrev EnumsConfig := List String

/-- JavaScript truthiness of an optional boolean field. -/
def optBool (o : Option Bool) : Bool := o.getD false

/-- JavaScript truthiness of an optional number field (`0` is falsy). -/
def optNumTruthy (o : Option Int) : Bool :=
  match o with
  | some n => n != 0
  | none => false

/-- JavaScript truthiness of an optional string field (`""` is falsy). -/
def optStrTruthy (o : Option String) : Bool :=
  match o with
  | some s => s != ""
  | none => false

/-- The empty `validation` record used when a column declares none
(`columnConfig.validation || {}`). -/
def emptyValidation : ColumnValidation :=
  ⟨none, none, none, none, none, none⟩

/-! ## String transforms (`lib/stringTransforms.ts`) -/

/-- Scanner for `toCamelCase`: every occurrence of `_` followed by
`[a-z0-9]` is replaced by the upper-cased follower (global regex
`/_([a-z0-9])/g`, left to right, resuming after each match). -/
def camelChars : List Char → List Char
  | [] => []
  | [c] => [c]
  | c₁ :: c₂ :: rest =>
    if c₁ = '_' ∧ (c₂.isLower ∨ c₂.isDigit) then
      c₂.toUpper :: camelChars rest
    else
      c₁ :: camelChars (c₂ :: rest)

/-- `toCamelCase` (`stringTransforms.ts`). -/
def toCamelCase (s : String) : String := ⟨camelChars s.data⟩

/-- Scanner for `toPascalCase` past the start of the string: every
`_([a-z])` is replaced by the upper-cased letter, the underscore dropped. -/
def pascalChars : List Char → List Char
  | [] => []
  | [c] => [c]
  | c₁ :: c₂ :: rest =>
    if c₁ = '_' ∧ c₂.isLower then
      c₂.toUpper :: pascalChars rest
    else
      c₁ :: pascalChars (c₂ :: rest)

/-- `toPascalCase` (`stringTransforms.ts`): regex `/(^|_)([a-z])/g`; the
`^` alternative only fires at position 0. -/
def toPascalCase (s : String) : String :=
  match s.data with
  | [] => ""
  | c :: rest =>
    if c.isLower then ⟨c.toUpper :: pascalChars rest⟩
    else ⟨pascalChars (c :: rest)⟩

/-- `String.prototype.toLowerCase`, character by character (kernel-reducible,
unlike `String.toLower`'s iterator-based implementation). -/
def strToLower (s : String) : String := ⟨s.data.map Char.toLower⟩

/-- `String.prototype.endsWith`, as a suffix test on the character lists
(kernel-reducible, unlike `String.endsWith`'s `substrEq`). -/
def strEndsWith (s suffix : String) : Bool :=
  suffix.data.isSuffixOf s.data

/-- `String.prototype.slice(0, -n)`: drop the last `n` characters. -/
def strDropRight (s : String) (n : Nat) : String :=
  ⟨s.data.take (s.data.length - n)⟩

/-- `toSingular` (`stringTransforms.ts`): irregular plurals first (looked
up on the lower-cased string), then the suffix rules in source order. -/
def toSingular (str : String) : String :=
  let lower := strToLower str
  if lower = "people" then "person"
  else if lower = "children" then "child"
  else if lower = "feet" then "foot"
  else if lower = "teeth" then "tooth"
  else if lower = "geese" then "goose"
  else if lower = "mice" then "mouse"
  else if lower = "men" then "man"
  else if lower = "women" then "woman"
  else if strEndsWith str "ies" then strDropRight str 3 ++ "y"
  else if strEndsWith str "ves" then strDropRight str 3 ++ "f"
  else if strEndsWith str "es" ∧ (strEndsWith str "ches" ∨ strEndsWith str "shes"
      ∨ strEndsWith str "xes" ∨ strEndsWith str "zes") then strDropRight str 2
  else if strEndsWith str "s" ∧ ¬ strEndsWith str "ss" then strDropRight str 1
  else str

/-- `toSingularPascalCase` (`stringTransforms.ts`). -/
def toSingularPascalCase (tableName : String) : String :=
  toPascalCase (toSingular tableName)

/-- `toSingularCamelCase` (`stringTransforms.ts`). -/
def toSingularCamelCase (tableName : String) : String :=
  toCamelCase (toSingular tableName)

/-! ## Template utilities (`lib/template.ts`) -/

/-- `generateFileHeader` (`template.ts`): the third line interpolates
`new Date().toISOString()`, passed here explicitly as `now`. -/
def generateFileHeader (description : String) (now : String) : String :=
  "// " ++ description ++
  "\n// This file is auto-generated. Do not edit manually.\n// Generated at: "
  ++ now ++ "\n\n"

/-- `generateImports` (`template.ts`). -/
def generateImports (imports : List (String × List String)) : String :=
  String.intercalate "\n"
    (imports.map (fun p =>
      "import \x7b " ++ String.intercalate ", " p.2 ++ " \x7d from '" ++ p.1 ++ "';"))
  ++ "\n\n"

/-- The predicate of the validator's primary-key scan:
`col.dbConstraints.primaryKey || col.dbConstraints.type === "serial"`. -/
def pkOrSerial (c : String × ColumnConfig) : Bool :=
  optBool c.2.dbConstraints.primaryKey || c.2.dbConstraints.type == "serial"

/-- `validateTableConfig` (identical copies in `lib/template.ts` and
`models/utils/schemaAnalysis.ts`), on the raw, unvalidated descriptor.
The issue strings are pushed in source order (name, column set, primary
key); when `columns` is absent at runtime, `Object.values(table.columns)`
throws a `TypeError` before the issue list is returned, which is modelled
by `Except.error`. -/
def validateTableConfig (t : RawTableConfig) : Except String (List String) :=
  let nameErrors := if t.tableName = "" then ["Table must have a tableName"] else []
  let columnErrors :=
    if t.columns = none ∨ t.columns = some [] then
      ["Table must have at least one column"]
    else []
  match t.columns with
  | none => Except.error "TypeError: Cannot convert undefined or null to object"
  | some cols =>
    let pkErrors :=
      if cols.any pkOrSerial then [] else ["Table must have a primary key"]
    Except.ok (nameErrors ++ columnErrors ++ pkErrors)

/-- The raw view of an in-memory (already shaped) table descriptor. -/
def TableConfig.toRaw (t : TableConfig) : RawTableConfig :=
  ⟨t.tableName, some t.columns⟩

example : toCamelCase "booking_items" = "bookingItems" := by decide
example : toPascalCase "user_status" = "UserStatus" := by decide
example : toSingular "bookings" = "booking" := by decide
example : toSingular "amenities" = "amenity" := by decide
example : toSingularPascalCase "users" = "User" := by decide
example : toSingularCamelCase "boxes" = "box" := by decide

/-! ## Storage-type mapper (`models/generators/schemas.ts`, `mapColumnToDrizzle`) -/

/-- The base Drizzle type expression chosen by the `switch` on
`dbConstraints.type` in `mapColumnToDrizzle`; the `serial` case
additionally seeds the constraint list, handled in `serialInitConstraints`. -/
def drizzleBaseExpr (columnName : String) (d : ColumnConstraints) (enums : EnumsConfig) : String :=
  match d.type with
  | "varchar" =>
    match d.length with
    | some l =>
      if l != 0 then "varchar('" ++ columnName ++ "', \x7b length: " ++ toString l ++ " \x7d)"
      else "varchar('" ++ columnName ++ "')"
    | none => "varchar('" ++ columnName ++ "')"
  | "text" => "text('" ++ columnName ++ "')"
  | "integer" => "integer('" ++ columnName ++ "')"
  | "serial" => "integer('" ++ columnName ++ "')"
  | "numeric" | "decimal" =>
    match d.precision, d.scale with
    | some p, some s =>
      if p != 0 ∧ s != 0 then
        "numeric('" ++ columnName ++ "', \x7b precision: " ++ toString p ++ ", scale: " ++ toString s ++ " \x7d)"
      else "numeric('" ++ columnName ++ "')"
    | _, _ => "numeric('" ++ columnName ++ "')"
  | "money" => "numeric('" ++ columnName ++ "', \x7b precision: 10, scale: 2 \x7d)"
  | "timestamp" => "timestamp('" ++ columnName ++ "', \x7b mode: 'date' \x7d)"
  | "date" => "date('" ++ columnName ++ "', \x7b mode: 'date' \x7d)"
  | "boolean" => "boolean('" ++ columnName ++ "')"
  | "geography" => "text('" ++ columnName ++ "')"
  | other =>
    match enums.find? (fun key => key == other || key == other ++ "_enum") with
    | some enumKey => toCamelCase enumKey ++ "('" ++ columnName ++ "')"
    | none => "text('" ++ columnName ++ "')"

/-- The constraints the `serial` switch case pushes before the common
constraint block. -/
def serialInitConstraints (d : ColumnConstraints) : List String :=
  if d.type = "serial" then [".primaryKey()", ".generatedAlwaysAsIdentity()"] else []

/-- The `.default*` modifier of `mapColumnToDrizzle` (empty when none is
pushed): `now()` becomes `.defaultNow()`, string defaults are quoted with
single quotes, numeric-family defaults are quoted because Drizzle numeric
columns take string defaults, everything else is interpolated verbatim. -/
def drizzleDefaultPart (d : ColumnConstraints) : String :=
  match d.defaultValue with
  | none => ""
  | some v =>
    if d.type = "serial" then ""
    else if v = JsonValue.str "now()" then ".defaultNow()"
    else
      match v with
      | JsonValue.str s => ".default('" ++ s ++ "')"
      | JsonValue.bool b => ".default(" ++ (if b then "true" else "false") ++ ")"
      | _ =>
        if d.type = "numeric" ∨ d.type = "decimal" ∨ d.type = "money" then
          ".default('" ++ v.render ++ "')"
        else ".default(" ++ v.render ++ ")"

/-- The `.notNull()` modifier of `mapColumnToDrizzle` (empty when not pushed). -/
def drizzleNotNullPart (d : ColumnConstraints) : String :=
  if ¬ optBool d.nullable ∧ d.type ≠ "serial" then ".notNull()" else ""

/-- The `.unique()` modifier of `mapColumnToDrizzle` (empty when not pushed). -/
def drizzleUniquePart (d : ColumnConstraints) : String :=
  if optBool d.unique ∧ d.type ≠ "serial" ∧ ¬ optBool d.primaryKey then ".unique()" else ""

/-- The `.primaryKey()` modifier of `mapColumnToDrizzle` (empty when not
pushed). -/
def drizzlePrimaryKeyPart (d : ColumnConstraints) (hasCompositePrimaryKey : Bool) : String :=
  if optBool d.primaryKey ∧ d.type ≠ "serial" ∧ ¬ hasCompositePrimaryKey then
    ".primaryKey()"
  else ""

/-- The `.references(...)` modifier of `mapColumnToDrizzle` (empty when the
column declares no foreign key). -/
def drizzleReferencesPart (d : ColumnConstraints) : String :=
  match d.references with
  | none => ""
  | some r =>
    ".references(() => " ++ toCamelCase r.table ++ "." ++ r.column ++
      (if optStrTruthy r.onDelete then
        ", \x7b onDelete: '" ++ r.onDelete.getD "" ++ "' \x7d"
      else "") ++ ")"

/-- `mapColumnToDrizzle` (`models/generators/schemas.ts`): the base type
from the `switch`, then the constraint strings pushed onto `constraints`
in source order (`serial`'s two pushes, default, not-null, unique,
primary-key, references), joined and prefixed with the camel-cased field
key. -/
def mapColumnToDrizzle (columnName : String) (c : ColumnConfig) (enums : EnumsConfig)
    (hasCompositePrimaryKey : Bool) : String :=
  let d := c.dbConstraints
  let fieldKey := toCamelCase columnName
  let constraints : List String :=
    serialInitConstraints d
    ++ (let p := drizzleDefaultPart d; if p = "" then [] else [p])
    ++ (let p := drizzleNotNullPart d; if p = "" then [] else [p])
    ++ (let p := drizzleUniquePart d; if p = "" then [] else [p])
    ++ (let p := drizzlePrimaryKeyPart d hasCompositePrimaryKey; if p = "" then [] else [p])
    ++ (let p := drizzleReferencesPart d; if p = "" then [] else [p])
  "  " ++ fieldKey ++ ": " ++ drizzleBaseExpr columnName d enums ++ String.join constraints

example :
    mapColumnToDrizzle "status"
      ⟨⟨"varchar", some 20, none, none, some false, some (.str "active"), none, none, none, none⟩, none⟩
      [] false
    = "  status: varchar('status', \x7b length: 20 \x7d).default('active').notNull()" := by decide

example :
    mapColumnToDrizzle "id"
      ⟨⟨"serial", none, none, none, none, none, none, none, none, none⟩, none⟩
      [] false
    = "  id: integer('id').primaryKey().generatedAlwaysAsIdentity()" := by decide

/-! ## Zod validation generator (`models/generators/validation.ts`) -/

/-- `.min(n)` from `validation.min` when truthy. -/
def zodMinPart (v : ColumnValidation) : String :=
  if optNumTruthy v.min then ".min(" ++ toString (v.min.getD 0) ++ ")" else ""

/-- `.max(n)` from `validation.max` when truthy. -/
def zodMaxPart (v : ColumnValidation) : String :=
  if optNumTruthy v.max then ".max(" ++ toString (v.max.getD 0) ++ ")" else ""

/-- `.max(validation.max || length)` when that disjunction is truthy. -/
def zodMaxOrLengthPart (v : ColumnValidation) (d : ColumnConstraints) : String :=
  let m := if optNumTruthy v.max then v.max else d.length
  if optNumTruthy m then ".max(" ++ toString (m.getD 0) ++ ")" else ""

/-- `.regex(/pattern/)` from `validation.pattern` when truthy. -/
def zodRegexPart (v : ColumnValidation) : String :=
  if optStrTruthy v.pattern then ".regex(/" ++ v.pattern.getD "" ++ "/)" else ""

/-- `generateBaseZodType` (`validation.ts`): the core type expression
before default/nullable/optional modifiers. The email/url branches append
max before min, the generic string branch min, max-or-length, regex, in
source order. -/
def generateBaseZodType (c : ColumnConfig) (enums : EnumsConfig) : String :=
  let d := c.dbConstraints
  let v := c.validation.getD emptyValidation
  match d.type with
  | "varchar" | "text" =>
    if optBool v.email then
      "z.email()" ++ zodMaxOrLengthPart v d ++ zodMinPart v
    else if optBool v.url then
      "z.url()" ++ zodMaxOrLengthPart v d ++ zodMinPart v
    else
      "z.string()" ++ zodMinPart v ++ zodMaxOrLengthPart v d ++ zodRegexPart v
  | "integer" | "serial" =>
    "z.number().int()" ++ zodMinPart v ++ zodMaxPart v
  | "numeric" | "decimal" | "money" =>
    "z.string().regex(/^\\d+\\.\\d\x7b2\x7d$/, 'Invalid price format')"
  | "timestamp" | "date" =>
    "z.date()"
    ++ (if optNumTruthy v.min then ".min(new Date('" ++ toString (v.min.getD 0) ++ "'))" else "")
    ++ (if optNumTruthy v.max then ".max(new Date('" ++ toString (v.max.getD 0) ++ "'))" else "")
  | "boolean" => "z.boolean()"
  | "geography" => "z.string()" ++ zodRegexPart v
  | other =>
    match enums.find? (fun key => key == other || key == other ++ "_enum") with
    | some enumKey => toCamelCase enumKey ++ "Schema"
    | none => "z.string()" ++ zodRegexPart v

/-- `addDefaultValue` (`validation.ts`): appends `.default(...)` unless the
column is `serial`, has no default, or defaults to the `now()` sentinel;
string defaults are double-quoted, numeric-family defaults are quoted with
a `.00` suffix for Drizzle compatibility. -/
def addDefaultValue (zodType : String) (c : ColumnConfig) : String :=
  let d := c.dbConstraints
  match d.defaultValue with
  | none => zodType
  | some v =>
    if d.type = "serial" ∨ v = JsonValue.str "now()" then zodType
    else
      zodType ++
        match v with
        | JsonValue.str s => ".default(\"" ++ s ++ "\")"
        | JsonValue.bool b => ".default(" ++ (if b then "true" else "false") ++ ")"
        | _ =>
          if d.type = "numeric" ∨ d.type = "decimal" ∨ d.type = "money" then
            ".default(\"" ++ v.render ++ ".00\")"
          else ".default(" ++ v.render ++ ")"

/-- `generateBaseSchemaField` (`validation.ts`): base type, then default,
then `.nullable()` when the column is nullable, then `.optional()` only
when `validation.required === false` and the column is neither nullable
nor a primary key. -/
def generateBaseSchemaField (columnName : String) (c : ColumnConfig) (enums : EnumsConfig) : String :=
  let d := c.dbConstraints
  let v := c.validation.getD emptyValidation
  let fieldKey := toCamelCase columnName
  let zodType := addDefaultValue (generateBaseZodType c enums) c
  let zodType := if optBool d.nullable then zodType ++ ".nullable()" else zodType
  let zodType :=
    if v.required = some false ∧ ¬ optBool d.nullable ∧ ¬ optBool d.primaryKey then
      zodType ++ ".optional()"
    else zodType
  "  " ++ fieldKey ++ ": " ++ zodType

/-- `generateTableSchema` (`validation.ts`): the base Zod object schema. -/
def generateTableSchema (t : TableConfig) (enums : EnumsConfig) : String :=
  "export const " ++ toSingularPascalCase t.tableName ++ "Schema = z.object(\x7b\n"
  ++ String.intercalate ",\n"
      (t.columns.map (fun col => generateBaseSchemaField col.1 col.2 enums))
  ++ "\n\x7d);"

/-- The auto-generated test of the insert derivation:
`type === "serial" || defaultValue === "now()"`. -/
def isAutoGenerated (c : String × ColumnConfig) : Bool :=
  c.2.dbConstraints.type == "serial"
  || c.2.dbConstraints.defaultValue == some (JsonValue.str "now()")

/-- The widening test of `generateInsertFieldModifications`:
`nullable || hasDefault || validation.required === false`. -/
def insertWidens (c : String × ColumnConfig) : Bool :=
  optBool c.2.dbConstraints.nullable
  || c.2.dbConstraints.defaultValue != none
  || (c.2.validation.getD emptyValidation).required == some false

/-- The field re-declaration an insert-widened column receives:
base type, default, and a trailing `.optional()`. -/
def insertModString (enums : EnumsConfig) (c : String × ColumnConfig) : String :=
  "    " ++ toCamelCase c.1 ++ ": "
  ++ addDefaultValue (generateBaseZodType c.2 enums) c.2 ++ ".optional()"

/-- The `autoGeneratedFields` accumulation of `generateInsertSchema`
(`validation.ts`): camel-cased keys of `serial` or `now()`-defaulted
columns, pushed in column order. -/
def autoGeneratedFields (t : TableConfig) : List String :=
  t.columns.foldl
    (fun acc c => if isAutoGenerated c then acc ++ [toCamelCase c.1] else acc) []

/-- The `modifications` accumulation of `generateInsertFieldModifications`
(`validation.ts`), pushed in column order: auto-generated columns are
skipped, widened columns are re-declared. -/
def insertFieldModsList (t : TableConfig) (enums : EnumsConfig) : List String :=
  t.columns.foldl
    (fun acc c =>
      if isAutoGenerated c then acc
      else if insertWidens c then acc ++ [insertModString enums c]
      else acc) []

/-- `generateInsertFieldModifications` (`validation.ts`): the joined
modification block. -/
def generateInsertFieldModifications (t : TableConfig) (enums : EnumsConfig) : String :=
  String.intercalate ",\n" (insertFieldModsList t enums)

/-- `generateInsertSchema` (`validation.ts`): base schema, `.omit` of the
auto-generated fields when any, `.extend` of the widened re-declarations
when any. -/
def generateInsertSchema (t : TableConfig) (enums : EnumsConfig) : String :=
  let baseSchemaName := toSingularPascalCase t.tableName ++ "Schema"
  let schemaName := toSingularPascalCase t.tableName ++ "InsertSchema"
  let auto := autoGeneratedFields t
  let modifications := generateInsertFieldModifications t enums
  if auto = [] ∧ modifications = "" then
    "export const " ++ schemaName ++ " = " ++ baseSchemaName ++ ";"
  else
    "export const " ++ schemaName ++ " = " ++ baseSchemaName
    ++ (if auto = [] then ""
        else ".omit(\x7b "
          ++ String.intercalate ", " (auto.map (fun f => f ++ ": true")) ++ " \x7d)")
    ++ (if modifications = "" then ""
        else ".extend(\x7b\n" ++ modifications ++ "\n  \x7d)")
    ++ ";"

/-- `generateUpdateSchema` (`validation.ts`): everything optional via
`.partial()`, with the first primary-key-or-serial column re-asserted. -/
def generateUpdateSchema (t : TableConfig) (enums : EnumsConfig) : String :=
  let insertSchemaName := toSingularPascalCase t.tableName ++ "InsertSchema"
  let schemaName := toSingularPascalCase t.tableName ++ "UpdateSchema"
  match t.columns.find? pkOrSerial with
  | none => "export const " ++ schemaName ++ " = " ++ insertSchemaName ++ ".partial();"
  | some pkCol =>
    "export const " ++ schemaName ++ " = " ++ insertSchemaName
    ++ ".partial().extend(\x7b\n  " ++ toCamelCase pkCol.1 ++ ": "
    ++ generateBaseZodType pkCol.2 enums ++ "\n\x7d);"

/-- `arr.indexOf(x) === index` de-duplication: keep first occurrences. -/
def dedupFirst (l : List String) : List String :=
  l.foldl (fun acc x => if x ∈ acc then acc else acc ++ [x]) []

/-- The `usedEnums` analysis of `generateTableValidation`: column types
that name an enum directly or with the `_enum` suffix, first occurrences
only. -/
def usedEnums (t : TableConfig) (enums : EnumsConfig) : List String :=
  dedupFirst
    ((t.columns.map (fun c => c.2.dbConstraints.type)).filter
      (fun ty => enums.contains ty || enums.contains (ty ++ "_enum")))

/-- One enum schema import line of `generateTableValidation` (nothing is
appended when the key resolution fails). -/
def enumImportLine (enums : EnumsConfig) (ty : String) : String :=
  match enums.find? (fun key => key == ty || key == ty ++ "_enum") with
  | some enumKey => "import \x7b " ++ toCamelCase enumKey ++ "Schema \x7d from '../enums';\n"
  | none => ""

/-- The body of a per-table validation artifact after the file header
(`generateTableValidation`, `validation.ts`): imports, optional enum
schema imports, the three schema tiers, and the inferred types. -/
def validationFileBody (t : TableConfig) (enums : EnumsConfig) : String :=
  let pascal := toSingularPascalCase t.tableName
  generateImports [("zod", ["z"])]
  ++ (let ue := usedEnums t enums
      if ue = [] then ""
      else "// Enum schema imports\n" ++ String.join (ue.map (enumImportLine enums)) ++ "\n")
  ++ "// Base table schema\n" ++ generateTableSchema t enums ++ "\n\n"
  ++ "// Insert schema (for creating new records)\n" ++ generateInsertSchema t enums ++ "\n\n"
  ++ "// Update schema (for updating existing records)\n" ++ generateUpdateSchema t enums ++ "\n\n"
  ++ "// TypeScript types (inferred from schemas above)\n"
  ++ "export type " ++ pascal ++ " = z.infer<typeof " ++ pascal ++ "Schema>;\n"
  ++ "export type " ++ pascal ++ "Insert = z.infer<typeof " ++ pascal ++ "InsertSchema>;\n"
  ++ "export type " ++ pascal ++ "Update = z.infer<typeof " ++ pascal ++ "UpdateSchema>;\n"

/-- `generateTableValidation` (`validation.ts`): validates the table and
throws (`Except.error`) on any issue, otherwise emits header plus body;
`now` is the interpolated generation instant. -/
def generateTableValidation (t : TableConfig) (enums : EnumsConfig) (now : String) :
    Except String String :=
  match validateTableConfig t.toRaw with
  | Except.error e => Except.error e
  | Except.ok errors =>
    if errors ≠ [] then
      Except.error ("Invalid table configuration for " ++ t.tableName ++ ": "
        ++ String.intercalate ", " errors)
    else
      Except.ok (generateFileHeader ("Zod validation schemas for " ++ t.tableName ++ " table") now
        ++ validationFileBody t enums)

/-! ## Aggregation barrels (`models/utils/aggregation.ts`) -/

/-- The artifact kinds of `generateModelAggregation` (the TypeScript union
`"schema" | "types" | "validation"`). -/
inductive AggKind where
  | schema
  | types
  | validation
deriving DecidableEq

/-- The kind as it is interpolated into the barrel text. -/
def AggKind.text : AggKind → String
  | .schema => "schema"
  | .types => "types"
  | .validation => "validation"

/-- The `descriptions` record of `generateModelAggregation`. -/
def aggDescription : AggKind → String
  | .schema => "Database schema aggregation for Drizzle Kit"
  | .types => "Types aggregation"
  | .validation => "Validation schemas aggregation"

/-- `generateModelAggregation` (`aggregation.ts`): header, the enum
re-export, then one re-export per table in load order. -/
def generateModelAggregation (tables : List TableConfig) (kind : AggKind) (now : String) : String :=
  generateFileHeader (aggDescription kind) now
  ++ "// Export all enum " ++ kind.text ++ "\n"
  ++ "export * from './enums/" ++ kind.text ++ "';\n\n"
  ++ "// Export all table " ++ kind.text ++ "\n"
  ++ String.join
      (tables.map (fun t =>
        "export * from './" ++ toSingularCamelCase t.tableName ++ "/" ++ kind.text ++ "';\n"))

/-! ## Relationship resolution (`models/generators/types.ts`) -/

/-- The outgoing relation line one foreign-key column contributes to
`generateForeignKeyRelations`, derived from the referenced table's name. -/
def fkRelationEntry (targetTable : String) : String :=
  "  " ++ toSingularCamelCase targetTable ++ "?: " ++ toSingularPascalCase targetTable ++ ";"

/-- The related-type import line both relation scanners push, derived
from a related table's name. -/
def relImportLine (relatedTable : String) : String :=
  "import type \x7b " ++ toSingularPascalCase relatedTable ++ " \x7d from '../"
  ++ toSingularCamelCase relatedTable ++ "';"

/-- The `if (!imports.includes(relatedType)) imports.push(line)` step both
scanners perform: note the guard compares the bare type name against the
pushed full lines, so it never deduplicates in practice. -/
def pushImport (acc : List String) (relatedType line : String) : List String :=
  if relatedType ∈ acc then acc else acc ++ [line]

/-- `generateForeignKeyRelations` (`types.ts`): one optional singular
relation per column carrying `dbConstraints.references`, in column order,
plus the import accumulation. -/
def generateForeignKeyRelations (t : TableConfig) : List String × List String :=
  let refs := t.columns.filterMap (fun c => c.2.dbConstraints.references)
  (refs.map (fun r => fkRelationEntry r.table),
   refs.foldl
     (fun acc r => pushImport acc (toSingularPascalCase r.table) (relImportLine r.table)) [])

/-- The incoming relation line a referencing table contributes to
`generateReverseRelations`: camel-cased source-table name, pluralized by
appending `s` unless it already ends in `s`, typed as an array of the
singular Pascal type. -/
def reverseRelationEntry (sourceTable : String) : String :=
  let tn := toCamelCase sourceTable
  let relationName := if strEndsWith tn "s" then tn else tn ++ "s"
  "  " ++ relationName ++ "?: " ++ toSingularPascalCase sourceTable ++ "[];"

/-- The scan of `generateReverseRelations`: every table of `allTables`
whose `tableName` differs from the current table's is walked in order,
and each of its columns whose foreign key targets the current table's
name contributes the scanned table's name, once per such column. -/
def reverseRelationHits (t : TableConfig) (allTables : List TableConfig) : List String :=
  (allTables.filter (fun other => other.tableName ≠ t.tableName)).flatMap
    (fun other =>
      other.columns.filterMap (fun c =>
        match c.2.dbConstraints.references with
        | some r => if r.table = t.tableName then some other.tableName else none
        | none => none))

/-- `generateReverseRelations` (`types.ts`): relation lines and import
accumulation over the scan hits. -/
def generateReverseRelations (t : TableConfig) (allTables : List TableConfig) :
    List String × List String :=
  let hits := reverseRelationHits t allTables
  (hits.map reverseRelationEntry,
   hits.foldl
     (fun acc n => pushImport acc (toSingularPascalCase n) (relImportLine n)) [])

/-! ## JavaScript string helpers used by the remaining emitters -/

/-- Code-unit-wise lexicographic comparison of character lists
(`Array.prototype.sort`'s default string order; exact for the
ASCII import names it is applied to). -/
def charListLe : List Char → List Char → Bool
  | [], _ => true
  | _ :: _, [] => false
  | a :: as, b :: bs =>
    if a.toNat < b.toNat then true
    else if b.toNat < a.toNat then false
    else charListLe as bs

/-- Insert a string into a sorted list (step of `Array.from(set).sort()`). -/
def insertSortedStr (x : String) : List String → List String
  | [] => [x]
  | y :: ys => if charListLe x.data y.data then x :: y :: ys else y :: insertSortedStr x ys

/-- `Array.prototype.sort()` on strings, as an insertion sort. -/
def jsSortStrings : List String → List String
  | [] => []
  | x :: xs => insertSortedStr x (jsSortStrings xs)

/-- `String.prototype.trim` (ASCII whitespace, exact for the generated
relation entries it is applied to). -/
def jsTrim (s : String) : String :=
  ⟨(s.data.dropWhile Char.isWhitespace).reverse.dropWhile Char.isWhitespace |>.reverse⟩

/-- `str.split(sep)[0]` for a one-character separator: the characters
before the first occurrence, or the whole string. -/
def takeUntilChar (sep : Char) (s : String) : String :=
  ⟨s.data.takeWhile (fun c => c ≠ sep)⟩

/-- `str.replace(pat, "")` for the one-character pattern `"?"`: remove the
first occurrence only. -/
def removeFirstChar (pat : Char) : List Char → List Char
  | [] => []
  | x :: xs => if x = pat then xs else x :: removeFirstChar pat xs

/-! ## Enum artifact emitters
(`models/generators/schemas.ts`, `validation.ts`, `types.ts`)

The enum-file emitters read the full enum configurations, modelled by
each enum's name paired with `Object.keys(config)` in declaration order
(the `EnumsConfig` name list consumed by the per-table generators is the
`Prod.fst` projection of this). -/

abbrev EnumsFullConfig := List (String × List String)

/-- The quoted value list of one enum: every configuration key except
`description`, single-quoted and comma-joined. -/
def enumValuesList (keys : List String) : String :=
  String.intercalate ", " ((keys.filter (fun k => k ≠ "description")).map
    (fun v => "'" ++ v ++ "'"))

/-- `generateEnumDefinitions` (`schemas.ts:18-32`): one `pgEnum` constant
per enum, newline-joined, plus a blank line. -/
def generateEnumDefinitions (enums : EnumsFullConfig) : String :=
  String.intercalate "\n"
    (enums.map (fun e =>
      "export const " ++ toCamelCase e.1 ++ " = pgEnum('" ++ e.1 ++ "', ["
      ++ enumValuesList e.2 ++ "]);"))
  ++ "\n\n"

/-- The body of the Drizzle enums artifact after the file header
(`generateEnumsFile`, `schemas.ts:379-390`). -/
def enumsSchemaFileBody (enums : EnumsFullConfig) : String :=
  generateImports [("drizzle-orm/pg-core", ["pgEnum"])] ++ generateEnumDefinitions enums

/-- `generateEnumsFile` (`schemas.ts`): the Drizzle enums artifact. -/
def generateEnumsFile (enums : EnumsFullConfig) (now : String) : String :=
  generateFileHeader "Drizzle enum definitions" now ++ enumsSchemaFileBody enums

/-- `generateEnumSchemas` (`validation.ts:23-36`): one `z.enum` schema
constant per enum, newline-joined, plus a blank line. -/
def generateEnumSchemas (enums : EnumsFullConfig) : String :=
  String.intercalate "\n"
    (enums.map (fun e =>
      "export const " ++ toCamelCase e.1 ++ "Schema = z.enum(["
      ++ enumValuesList e.2 ++ "]);"))
  ++ "\n\n"

/-- The body of the Zod enums artifact after the file header
(`generateEnumsValidation`, `validation.ts:353-372`). -/
def enumsValidationFileBody (enums : EnumsFullConfig) : String :=
  generateImports [("zod", ["z"])]
  ++ generateEnumSchemas enums
  ++ "// TypeScript types (inferred from schemas above)\n"
  ++ String.join (enums.map (fun e =>
      "export type " ++ toPascalCase e.1 ++ " = z.infer<typeof "
      ++ toCamelCase e.1 ++ "Schema>;\n"))

/-- `generateEnumsValidation` (`validation.ts`): the Zod enums artifact. -/
def generateEnumsValidation (enums : EnumsFullConfig) (now : String) : String :=
  generateFileHeader "Zod enum validation schemas" now ++ enumsValidationFileBody enums

/-- The body of the enum extension-types artifact after the file header
(`generateEnumsTypes`, `types.ts:220-232`). -/
def enumsTypesFileBody (enums : EnumsFullConfig) : String :=
  "// Re-export base enum types from validation schemas\n"
  ++ String.join (enums.map (fun e =>
      "export type \x7b " ++ toPascalCase e.1 ++ " \x7d from './validation';\n"))
  ++ "\n"

/-- `generateEnumsTypes` (`types.ts`): the enum extension-types artifact. -/
def generateEnumsTypes (enums : EnumsFullConfig) (now : String) : String :=
  generateFileHeader "TypeScript enum extension types" now ++ enumsTypesFileBody enums

/-! ## Storage-schema artifact (`models/generators/schemas.ts`,
`generateTableSchema` and its helpers) -/

/-- The `drizzle-orm/pg-core` constructor a column's type pulls in
(the `switch` at `schemas.ts:263-291`; unrecognized types add nothing). -/
def typeToPgCoreImport (ty : String) : Option String :=
  match ty with
  | "varchar" => some "varchar"
  | "text" => some "text"
  | "integer" => some "integer"
  | "serial" => some "integer"
  | "numeric" => some "numeric"
  | "decimal" => some "numeric"
  | "money" => some "numeric"
  | "timestamp" => some "timestamp"
  | "date" => some "date"
  | "boolean" => some "boolean"
  | _ => none

/-- JavaScript truthiness of an optional record that must also be
non-empty (`table.indexes && Object.keys(table.indexes).length > 0`). -/
def optRecordNonEmpty {α : Type} (o : Option (List α)) : Bool :=
  match o with
  | some l => !l.isEmpty
  | none => false

/-- The column names flagged primary key with a non-serial type
(`schemas.ts:159-165`). -/
def primaryKeyColumnNames (t : TableConfig) : List String :=
  (t.columns.filter (fun c =>
    optBool c.2.dbConstraints.primaryKey && c.2.dbConstraints.type != "serial")).map
    Prod.fst

/-- More than one non-serial primary-key column (`schemas.ts:167`). -/
def hasCompositePrimaryKeyFor (t : TableConfig) : Bool :=
  (primaryKeyColumnNames t).length > 1

/-- The `pgCoreImports` set of `generateTableSchema` (`schemas.ts:257-305`):
`pgTable` always, the per-column constructors, `index` when indexes
exist, `primaryKey` for a composite key; the `Set` de-duplicates and
`Array.from(...).sort()` orders the result. -/
def pgCoreImportsFor (t : TableConfig) : List String :=
  jsSortStrings (dedupFirst
    ("pgTable" :: (t.columns.filterMap (fun c => typeToPgCoreImport c.2.dbConstraints.type)
      ++ (if optRecordNonEmpty t.indexes then ["index"] else [])
      ++ (if hasCompositePrimaryKeyFor t then ["primaryKey"] else []))))

/-- The `drizzleImports` set: `relations` when relationship declarations
exist (`schemas.ts:316-318`). -/
def drizzleImportsFor (t : TableConfig) : List String :=
  if optRecordNonEmpty t.relationships then ["relations"] else []

/-- The enum column types of the table that resolve against the enum set
(`schemas.ts:332-338`; unlike the validation emitter's `usedEnums`, this
list is not de-duplicated). -/
def drizzleUsedEnums (t : TableConfig) (enums : EnumsConfig) : List String :=
  (t.columns.map (fun c => c.2.dbConstraints.type)).filter
    (fun ty => enums.contains ty || enums.contains (ty ++ "_enum"))

/-- One Drizzle enum import line (`schemas.ts:342-349`; nothing is
appended when the key resolution fails). -/
def drizzleEnumImportLine (enums : EnumsConfig) (ty : String) : String :=
  match enums.find? (fun key => key == ty || key == ty ++ "_enum") with
  | some enumKey => "import \x7b " ++ toCamelCase enumKey ++ " \x7d from '../enums';\n"
  | none => ""

/-- The referenced foreign-key target tables, first occurrences only
(`schemas.ts:354-357`). -/
def referencedTablesFor (t : TableConfig) : List String :=
  dedupFirst ((t.columns.filterMap (fun c => c.2.dbConstraints.references)).map
    (fun r => r.table))

/-- `generateTableDefinition` (`schemas.ts:152-210`): the `pgTable` call
with every column mapped in order and a constraints callback holding the
composite primary key and the named indexes when present. -/
def generateTableDefinition (t : TableConfig) (enums : EnumsConfig) : String :=
  let hasComposite := hasCompositePrimaryKeyFor t
  let columns := String.intercalate ",\n"
    (t.columns.map (fun c => mapColumnToDrizzle c.1 c.2 enums hasComposite))
  let constraints : List String :=
    (if hasComposite then
      ["  primaryKey(\x7b columns: ["
        ++ String.intercalate ", " ((primaryKeyColumnNames t).map
            (fun col => "table." ++ toCamelCase col))
        ++ "] \x7d)"]
    else [])
    ++ (match t.indexes with
        | some idxs =>
          idxs.map (fun idx =>
            "  index('" ++ idx.1 ++ "').on("
            ++ String.intercalate ", " (idx.2.columns.map
                (fun col => "table." ++ toCamelCase col))
            ++ ")")
        | none => [])
  let constraintsCallback :=
    if constraints ≠ [] then
      ", (table) => [\n" ++ String.intercalate ",\n" constraints ++ "\n]"
    else ""
  "export const " ++ toCamelCase t.tableName ++ " = pgTable('" ++ t.tableName
  ++ "', \x7b\n" ++ columns ++ "\n\x7d" ++ constraintsCallback ++ ");"

/-- `generateRelations` (`schemas.ts:213-238`): the `relations` block when
relationship declarations exist. -/
def generateRelations (t : TableConfig) : String :=
  match t.relationships with
  | none => ""
  | some rels =>
    if rels = [] then ""
    else
      let tableName := toCamelCase t.tableName
      let body := String.intercalate "\n"
        (rels.map (fun rel =>
          match rel.2.type with
          | "one-to-one" => "  " ++ rel.1 ++ ": one(" ++ toCamelCase rel.2.table ++ "),"
          | "one-to-many" => "  " ++ rel.1 ++ ": many(" ++ toCamelCase rel.2.table ++ "),"
          | "many-to-many" => "  // many-to-many relation: " ++ rel.1
          | _ => "  // unknown relation type: " ++ rel.1))
      "\n\nexport const " ++ tableName ++ "Relations = relations(" ++ tableName
      ++ ", (\x7b one, many \x7d) => (\x7b\n" ++ body ++ "\n\x7d));"

/-- The body of a per-table storage artifact after the file header
(`generateTableSchema`, `schemas.ts:241-376`): the sorted minimal imports,
the enum and foreign-key table imports, the table definition and the
relations block. -/
def schemaFileBody (t : TableConfig) (enums : EnumsConfig) : String :=
  generateImports ([("drizzle-orm/pg-core", pgCoreImportsFor t)]
    ++ (if drizzleImportsFor t ≠ [] then [("drizzle-orm", drizzleImportsFor t)] else []))
  ++ (let ue := drizzleUsedEnums t enums
      if ue = [] then ""
      else "// Enum imports\n" ++ String.join (ue.map (drizzleEnumImportLine enums)) ++ "\n")
  ++ (let rt := referencedTablesFor t
      if rt = [] then ""
      else "// Table imports for foreign keys\n"
        ++ String.join (rt.map (fun tbl =>
            "import \x7b " ++ toCamelCase tbl ++ " \x7d from '../"
            ++ toSingularCamelCase tbl ++ "';\n"))
        ++ "\n")
  ++ generateTableDefinition t enums
  ++ generateRelations t

/-- `generateTableSchema` of `schemas.ts` (named here for the artifact it
emits; the validation emitter's function of the same source name is
`generateTableSchema` above): validates the table, throwing
(`Except.error`) on any issue, then emits header plus body. -/
def generateDrizzleTableSchema (t : TableConfig) (enums : EnumsConfig) (now : String) :
    Except String String :=
  match validateTableConfig t.toRaw with
  | Except.error e => Except.error e
  | Except.ok errors =>
    if errors ≠ [] then
      Except.error ("Invalid table configuration for " ++ t.tableName ++ ": "
        ++ String.intercalate ", " errors)
    else
      Except.ok (generateFileHeader ("Drizzle schema for " ++ t.tableName ++ " table") now
        ++ schemaFileBody t enums)

/-! ## Extension-types artifact (`models/generators/types.ts`,
`generateTableTypes` and its helpers) -/

/-- `generateApiTypes` (`types.ts:19-54`): the five API envelope
interfaces, double-newline-joined. -/
def generateApiTypes (t : TableConfig) : String :=
  let baseName := toSingularPascalCase t.tableName
  String.intercalate "\n\n"
    [ "export interface " ++ toPascalCase t.tableName ++ "ListResponse \x7b\n  data: "
        ++ baseName ++ "[];\n  total: number;\n  page: number;\n  limit: number;\n\x7d",
      "export interface " ++ baseName ++ "Response \x7b\n  data: " ++ baseName ++ ";\n\x7d",
      "export interface " ++ baseName ++ "CreateRequest \x7b\n  data: " ++ baseName
        ++ "Insert;\n\x7d",
      "export interface " ++ baseName ++ "UpdateRequest \x7b\n  data: " ++ baseName
        ++ "Update;\n\x7d",
      "export interface " ++ baseName
        ++ "DeleteResponse \x7b\n  success: boolean;\n  message?: string;\n\x7d" ]

/-- One specialized required-relation interface (`types.ts:151-159`): the
relation name is recovered from the entry string by `split(":")[0]`,
`trim()`, `replace("?", "")` and `split(" ")[0]`, and the entry itself is
re-emitted with its first `?` removed. -/
def specificRelationType (baseName relation : String) : String :=
  let relationName := jsTrim (takeUntilChar ':' relation)
  let relationTypeName := takeUntilChar ' ' ⟨removeFirstChar '?' relationName.data⟩
  let requiredRelation : String := ⟨removeFirstChar '?' relation.data⟩
  "export interface " ++ baseName ++ "With" ++ toPascalCase relationTypeName
  ++ " extends " ++ baseName ++ " \x7b\n  " ++ requiredRelation ++ "\n\x7d"

/-- `generateRelationshipTypes` (`types.ts:119-164`): empty when no
relation exists, otherwise the `WithRelations` interface over all
outgoing and incoming entries plus one specialized interface per
outgoing relation. -/
def generateRelationshipTypes (t : TableConfig) (allTables : List TableConfig) : String :=
  let baseName := toSingularPascalCase t.tableName
  let fkRelations := generateForeignKeyRelations t
  let reverseRelations := generateReverseRelations t allTables
  let allRelations := fkRelations.1 ++ reverseRelations.1
  if allRelations = [] then ""
  else
    let withRelationsType := "export interface " ++ baseName ++ "WithRelations extends "
      ++ baseName ++ " \x7b\n" ++ String.intercalate "\n" allRelations ++ "\n\x7d"
    "\n// Relationship types\n"
    ++ String.intercalate "\n\n"
        (withRelationsType :: fkRelations.1.map (specificRelationType baseName))

/-- The body of a per-table extension-types artifact after the file
header (`generateTableTypes`, `types.ts:167-217`): the validation-type
and de-duplicated related-table imports, the re-export, the API
envelope types and the relationship types when any. -/
def typesFileBody (t : TableConfig) (allTables : List TableConfig) : String :=
  let baseName := toSingularPascalCase t.tableName
  "// Import base types from validation schemas\n"
  ++ "import type \x7b " ++ baseName ++ ", " ++ baseName ++ "Insert, " ++ baseName
  ++ "Update \x7d from './validation';\n\n"
  ++ (let allRelationImports :=
        dedupFirst ((generateForeignKeyRelations t).2 ++ (generateReverseRelations t allTables).2)
      if allRelationImports = [] then ""
      else "// Related table type imports\n"
        ++ String.intercalate "\n" allRelationImports ++ "\n\n")
  ++ "// Re-export base types for compatibility\n"
  ++ "export type \x7b " ++ baseName ++ ", " ++ baseName ++ "Insert, " ++ baseName
  ++ "Update \x7d from './validation';\n\n"
  ++ "// API request/response types\n"
  ++ generateApiTypes t ++ "\n"
  ++ (let relationshipTypes := generateRelationshipTypes t allTables
      if relationshipTypes = "" then "" else relationshipTypes ++ "\n")

/-- `generateTableTypes` (`types.ts`): validates the table, throwing
(`Except.error`) on any issue, then emits header plus body (the enum set
parameter is received but never read, as in the source). -/
def generateTableTypes (t : TableConfig) (enums : EnumsConfig)
    (allTables : List TableConfig) (now : String) : Except String String :=
  match validateTableConfig t.toRaw with
  | Except.error e => Except.error e
  | Except.ok errors =>
    if errors ≠ [] then
      Except.error ("Invalid table configuration for " ++ t.tableName ++ ": "
        ++ String.intercalate ", " errors)
    else
      Except.ok (generateFileHeader
          ("TypeScript extension types for " ++ t.tableName ++ " table") now
        ++ typesFileBody t allTables)

/-! ## Helper lemmas on string concatenation -/

theorem strFoldlAppend (l : List String) (a : String) :
    l.foldl (· ++ ·) a = a ++ l.foldl (· ++ ·) "" := by
  induction l generalizing a with
  | nil => simp [List.foldl, String.append_empty]
  | cons x xs ih =>
    simp only [List.foldl]
    rw [ih (a ++ x), ih ("" ++ x), String.empty_append, String.append_assoc]

theorem strJoin_append (l₁ l₂ : List String) :
    String.join (l₁ ++ l₂) = String.join l₁ ++ String.join l₂ := by
  simp only [String.join, List.foldl_append]
  rw [strFoldlAppend l₂ (List.foldl (· ++ ·) "" l₁)]

theorem strJoin_onePiece (p : String) :
    String.join (if p = "" then [] else [p]) = p := by
  by_cases h : p = "" <;> simp [h, String.join, String.empty_append]

theorem strFoldl_onePiece (a p : String) :
    List.foldl (· ++ ·) a (if p = "" then [] else [p]) = a ++ p := by
  by_cases h : p = "" <;> simp [h, List.foldl, String.append_empty]

theorem strAppend_right_inj {p q a b : String} (h : p ++ a = q ++ b)
    (hl : a.length = b.length) : a = b := by
  apply String.ext
  have hd : p.data ++ a.data = q.data ++ b.data := by
    have := congrArg String.data h
    simpa [String.data_append] using this
  exact (List.append_inj' hd hl).2

/-! ## C4: order of storage-type constraint modifiers -/

/-- A varchar column with a default and `nullable: false`: both the
default and the not-null modifier apply. -/
def statusVarcharCol : ColumnConfig :=
  ⟨⟨"varchar", none, none, none, some false, some (JsonValue.str "active"),
    none, none, none, none⟩, none⟩

/-- The modifier order the specification sentence asserts (not-null first,
then default, then unique, then primary-key, then foreign-key), assembled
from the same parts as the code; follows the spec's words, for comparison
with `mapColumnToDrizzle`. -/
def claimOrderedStorageExpr (columnName : String) (c : ColumnConfig) (enums : EnumsConfig)
    (hasCompositePrimaryKey : Bool) : String :=
  let d := c.dbConstraints
  "  " ++ toCamelCase columnName ++ ": " ++ drizzleBaseExpr columnName d enums
  ++ drizzleNotNullPart d ++ drizzleDefaultPart d ++ drizzleUniquePart d
  ++ drizzlePrimaryKeyPart d hasCompositePrimaryKey ++ drizzleReferencesPart d

/-- C4, counterexample: on a varchar column with both a default value and
`nullable: false`, the code emits `.default('active').notNull()` — the
default modifier precedes the not-null modifier, so the claimed canonical
order (not-null before default) does not hold. -/
theorem c4_modifier_order_counterexample :
    mapColumnToDrizzle "status" statusVarcharCol [] false
      = "  status: varchar('status').default('active').notNull()"
    ∧ mapColumnToDrizzle "status" statusVarcharCol [] false
      ≠ claimOrderedStorageExpr "status" statusVarcharCol [] false := by
  constructor
  · decide
  · decide

/-- C4, amended: for every non-serial column the storage-type expression
is the base type followed by the constraint modifiers in the fixed order
default, not-null, unique (suppressed for primary-key columns), primary
key, foreign-key reference. -/
theorem c4_modifier_order_amended (columnName : String) (c : ColumnConfig)
    (enums : EnumsConfig) (hasCompositePrimaryKey : Bool)
    (h : c.dbConstraints.type ≠ "serial") :
    mapColumnToDrizzle columnName c enums hasCompositePrimaryKey
      = "  " ++ toCamelCase columnName ++ ": "
        ++ drizzleBaseExpr columnName c.dbConstraints enums
        ++ drizzleDefaultPart c.dbConstraints
        ++ drizzleNotNullPart c.dbConstraints
        ++ drizzleUniquePart c.dbConstraints
        ++ drizzlePrimaryKeyPart c.dbConstraints hasCompositePrimaryKey
        ++ drizzleReferencesPart c.dbConstraints := by
  unfold mapColumnToDrizzle serialInitConstraints
  simp only [h, if_false]
  rw [List.nil_append]
  rw [strJoin_append, strJoin_append, strJoin_append, strJoin_append]
  rw [strJoin_onePiece, strJoin_onePiece, strJoin_onePiece, strJoin_onePiece,
    strJoin_onePiece]
  simp [String.append_assoc]

/-- C4, amended, witnessed at a concrete column carrying every modifier. -/
theorem c4_modifier_order_amended_witness :
    mapColumnToDrizzle "status" statusVarcharCol [] false
      = "  " ++ toCamelCase "status" ++ ": "
        ++ drizzleBaseExpr "status" statusVarcharCol.dbConstraints []
        ++ drizzleDefaultPart statusVarcharCol.dbConstraints
        ++ drizzleNotNullPart statusVarcharCol.dbConstraints
        ++ drizzleUniquePart statusVarcharCol.dbConstraints
        ++ drizzlePrimaryKeyPart statusVarcharCol.dbConstraints false
        ++ drizzleReferencesPart statusVarcharCol.dbConstraints :=
  c4_modifier_order_amended "status" statusVarcharCol [] false (by decide)

/-! ## C7: serial columns -/

theorem drizzleDefaultPart_eq_empty_of_serial (d : ColumnConstraints)
    (h : d.type = "serial") : drizzleDefaultPart d = "" := by
  unfold drizzleDefaultPart
  cases d.defaultValue <;> simp [h]

/-- C7: a `serial` column's storage expression is always
`integer('name').primaryKey().generatedAlwaysAsIdentity()` followed only
by the foreign-key part when one is declared — so it carries the
primary-key modifier unconditionally (in particular when no other column
is flagged primary), and never a not-null, unique or default modifier. -/
theorem c7_serial_storage_shape (columnName : String) (c : ColumnConfig)
    (enums : EnumsConfig) (hasCompositePrimaryKey : Bool)
    (h : c.dbConstraints.type = "serial") :
    mapColumnToDrizzle columnName c enums hasCompositePrimaryKey
      = "  " ++ toCamelCase columnName ++ ": integer('" ++ columnName
        ++ "').primaryKey().generatedAlwaysAsIdentity()"
        ++ drizzleReferencesPart c.dbConstraints := by
  obtain ⟨⟨ty, len, prec, sc, nul, dv, pk, un, ai, refs⟩, v⟩ := c
  simp only at h
  subst h
  unfold mapColumnToDrizzle serialInitConstraints drizzleBaseExpr drizzleDefaultPart
    drizzleNotNullPart drizzleUniquePart drizzlePrimaryKeyPart
  cases dv <;>
    (simp [strJoin_append, strJoin_onePiece, strFoldl_onePiece, String.join,
       String.empty_append, String.append_empty, String.append_assoc]
     rw [show (": integer('" : String) = ": " ++ "integer('" from by decide]
     rw [show ("').primaryKey().generatedAlwaysAsIdentity()" : String)
           = "')" ++ ".primaryKey().generatedAlwaysAsIdentity()" from by decide]
     simp only [String.append_assoc])

/-- C7, witnessed at a `serial` column that also declares a foreign key. -/
theorem c7_serial_storage_shape_witness :
    mapColumnToDrizzle "id"
      ⟨⟨"serial", none, none, none, none, none, none, none, none,
        some ⟨"users", "id", some "cascade", none⟩⟩, none⟩ [] false
      = "  " ++ toCamelCase "id" ++ ": integer('" ++ "id"
        ++ "').primaryKey().generatedAlwaysAsIdentity()"
        ++ drizzleReferencesPart
            ⟨"serial", none, none, none, none, none, none, none, none,
              some ⟨"users", "id", some "cascade", none⟩⟩ :=
  c7_serial_storage_shape "id"
    ⟨⟨"serial", none, none, none, none, none, none, none, none,
      some ⟨"users", "id", some "cascade", none⟩⟩, none⟩ [] false (by decide)

/-! ## C5 and C6: the table validator -/

deriving instance DecidableEq for Except

/-- A minimal serial primary-key column. -/
def serialIdCol : ColumnConfig :=
  ⟨⟨"serial", none, none, none, some false, none, some true, none, none, none⟩, none⟩

/-- C5: on a descriptor whose column map is absent at runtime, the
validator does not return an issue list — `Object.values(table.columns)`
throws a `TypeError` (the guard `!table.columns` two lines earlier shows
absence was meant to be handled); with a present-but-empty column map it
does return the issue list, so the failure is specifically the absent
map. -/
theorem c5_validator_throws_on_absent_columns :
    validateTableConfig ⟨"users", none⟩
      = Except.error "TypeError: Cannot convert undefined or null to object"
    ∧ validateTableConfig ⟨"users", some []⟩
      = Except.ok ["Table must have at least one column", "Table must have a primary key"] := by
  constructor
  · decide
  · decide

/-- C6, counterexample: a table with an empty name, one column and a
serial primary key has at least one column and a primary-key-bearing
column, yet the validator's list is non-empty — the claimed
"empty iff ≥1 column ∧ ≥1 primary key" equivalence omits the name check. -/
theorem c6_missing_name_counterexample :
    validateTableConfig ⟨"", some [("id", serialIdCol)]⟩
      = Except.ok ["Table must have a tableName"]
    ∧ [("id", serialIdCol)] ≠ ([] : List (String × ColumnConfig))
    ∧ [("id", serialIdCol)].any pkOrSerial = true
    ∧ ["Table must have a tableName"] ≠ ([] : List String) := by
  refine ⟨by decide, by decide, by decide, by decide⟩

/-- C6, amended: when the column map is present the validator returns the
issue list with one entry per failed check in the order missing name,
empty column set, missing primary key, and that list is empty iff the
name is non-empty, at least one column exists, and some column is flagged
primary key or has the serial type. -/
theorem c6_validator_issue_list (t : RawTableConfig)
    (cols : List (String × ColumnConfig)) (h : t.columns = some cols) :
    validateTableConfig t
      = Except.ok ((if t.tableName = "" then ["Table must have a tableName"] else [])
          ++ (if cols = [] then ["Table must have at least one column"] else [])
          ++ (if cols.any pkOrSerial then [] else ["Table must have a primary key"]))
    ∧ (validateTableConfig t = Except.ok []
        ↔ (t.tableName ≠ "" ∧ cols ≠ [] ∧ cols.any pkOrSerial = true)) := by
  obtain ⟨name, columns⟩ := t
  simp only at h
  subst h
  unfold validateTableConfig
  simp only [Option.some.injEq, reduceCtorEq, false_or]
  refine ⟨by simp, ?_⟩
  by_cases hn : name = "" <;> by_cases hc : cols = [] <;>
    by_cases hp : cols.any pkOrSerial <;>
    simp [hn, hc, hp]

/-- C6, amended, witnessed on a well-formed one-column table and on the
counterexample input. -/
theorem c6_validator_issue_list_witness :
    (validateTableConfig ⟨"users", some [("id", serialIdCol)]⟩
      = Except.ok ((if ("users" : String) = "" then ["Table must have a tableName"] else [])
          ++ (if [("id", serialIdCol)] = ([] : List (String × ColumnConfig)) then
                ["Table must have at least one column"] else [])
          ++ (if [("id", serialIdCol)].any pkOrSerial then []
              else ["Table must have a primary key"])))
    ∧ (validateTableConfig ⟨"users", some [("id", serialIdCol)]⟩ = Except.ok []
        ↔ (("users" : String) ≠ "" ∧ [("id", serialIdCol)] ≠ ([] : List (String × ColumnConfig))
            ∧ [("id", serialIdCol)].any pkOrSerial = true)) :=
  c6_validator_issue_list ⟨"users", some [("id", serialIdCol)]⟩ [("id", serialIdCol)] rfl

/-! ## C8 and C10: nullable and optional modifiers in the base schema -/

/-- C8: a nullable column's base-schema field is exactly the type, bounds,
pattern and default parts followed by `.nullable()` as the last modifier,
and no `.optional()` modifier is ever appended after it (whatever the
`required` flag says, since optionality demands a non-nullable column). -/
theorem c8_nullable_wraps_last (columnName : String) (c : ColumnConfig)
    (enums : EnumsConfig) (h : c.dbConstraints.nullable = some true) :
    (generateBaseSchemaField columnName c enums
      = "  " ++ toCamelCase columnName ++ ": "
        ++ addDefaultValue (generateBaseZodType c enums) c ++ ".nullable()")
    ∧ ¬ ∃ q, generateBaseSchemaField columnName c enums = q ++ ".optional()" := by
  have heq : generateBaseSchemaField columnName c enums
      = "  " ++ toCamelCase columnName ++ ": "
        ++ addDefaultValue (generateBaseZodType c enums) c ++ ".nullable()" := by
    unfold generateBaseSchemaField
    simp [h, optBool, String.append_assoc]
  refine ⟨heq, ?_⟩
  rintro ⟨q, hq⟩
  rw [heq] at hq
  have h2 : (".nullable()" : String) = ".optional()" :=
    strAppend_right_inj hq (by decide)
  exact absurd h2 (by decide)

/-- A nullable free-text column (the `bio` column of the repository's
`users` table). -/
def bioTextCol : ColumnConfig :=
  ⟨⟨"text", none, none, none, some true, none, none, none, none, none⟩,
   some ⟨none, none, some 1000, none, none, none⟩⟩

/-- C8, witnessed at the nullable `bio` column. -/
theorem c8_nullable_wraps_last_witness :
    (generateBaseSchemaField "bio" bioTextCol []
      = "  " ++ toCamelCase "bio" ++ ": "
        ++ addDefaultValue (generateBaseZodType bioTextCol []) bioTextCol ++ ".nullable()")
    ∧ ¬ ∃ q, generateBaseSchemaField "bio" bioTextCol [] = q ++ ".optional()" :=
  c8_nullable_wraps_last "bio" bioTextCol [] (by decide)

/-- C10: a primary-key column's base-schema field never receives the
`.optional()` modifier — the emitted field is exactly the
default-augmented base type plus at most a `.nullable()` wrapper — even
when its validation rules set `required: false` and it is not nullable. -/
theorem c10_primary_key_never_optional (columnName : String) (c : ColumnConfig)
    (enums : EnumsConfig) (h : c.dbConstraints.primaryKey = some true) :
    generateBaseSchemaField columnName c enums
      = "  " ++ toCamelCase columnName ++ ": "
        ++ addDefaultValue (generateBaseZodType c enums) c
        ++ (if optBool c.dbConstraints.nullable then ".nullable()" else "") := by
  unfold generateBaseSchemaField
  simp only [h, optBool]
  by_cases hn : c.dbConstraints.nullable.getD false = true <;>
    simp [hn, String.append_empty, String.append_assoc]

/-- A non-nullable primary-key column whose validation rules explicitly
set `required: false`. -/
def pkNotRequiredCol : ColumnConfig :=
  ⟨⟨"integer", none, none, none, some false, none, some true, none, none, none⟩,
   some ⟨some false, none, none, none, none, none⟩⟩

/-- C10, witnessed at a primary-key column with `required: false` and
`nullable: false`. -/
theorem c10_primary_key_never_optional_witness :
    generateBaseSchemaField "user_id" pkNotRequiredCol []
      = "  " ++ toCamelCase "user_id" ++ ": "
        ++ addDefaultValue (generateBaseZodType pkNotRequiredCol []) pkNotRequiredCol
        ++ (if optBool pkNotRequiredCol.dbConstraints.nullable then ".nullable()" else "") :=
  c10_primary_key_never_optional "user_id" pkNotRequiredCol [] (by decide)

/-! ## C9: derivation of the insert schema -/

theorem foldl_pushIf_eq_filterMap {α β : Type} (p : α → Bool) (g : α → β)
    (l : List α) (acc : List β) :
    l.foldl (fun acc c => if p c then acc ++ [g c] else acc) acc
      = acc ++ (l.filter p).map g := by
  induction l generalizing acc with
  | nil => simp
  | cons x xs ih =>
    by_cases hp : p x <;> simp [hp, ih, List.filter_cons]

theorem foldl_skipPush_eq_filterMap {α β : Type} (p q : α → Bool) (g : α → β)
    (l : List α) (acc : List β) :
    l.foldl (fun acc c => if p c then acc else if q c then acc ++ [g c] else acc) acc
      = acc ++ (l.filter (fun c => !p c && q c)).map g := by
  induction l generalizing acc with
  | nil => simp
  | cons x xs ih =>
    by_cases hp : p x <;> by_cases hq : q x <;> simp [hp, hq, ih, List.filter_cons]

/-- C9: the insert schema omits exactly the auto-generated columns
(`serial` or `now()`-defaulted), re-declares exactly the remaining
nullable/defaulted/not-required columns, every re-declaration carries a
trailing `.optional()`, and a non-nullable column with an ordinary
default stays required (and un-widened) in the base schema while
qualifying for the optional re-declaration in the insert schema. -/
theorem c9_insert_derivation (t : TableConfig) (enums : EnumsConfig) :
    autoGeneratedFields t = (t.columns.filter isAutoGenerated).map (fun c => toCamelCase c.1)
    ∧ insertFieldModsList t enums
        = (t.columns.filter (fun c => !isAutoGenerated c && insertWidens c)).map
            (insertModString enums)
    ∧ (∀ s ∈ insertFieldModsList t enums, ∃ q, s = q ++ ".optional()")
    ∧ (∀ (columnName : String) (c : ColumnConfig),
        c.dbConstraints.type ≠ "serial" →
        (∃ v, c.dbConstraints.defaultValue = some v ∧ v ≠ JsonValue.str "now()") →
        optBool c.dbConstraints.nullable = false →
        (c.validation.getD emptyValidation).required ≠ some false →
        generateBaseSchemaField columnName c enums
          = "  " ++ toCamelCase columnName ++ ": "
            ++ addDefaultValue (generateBaseZodType c enums) c
        ∧ isAutoGenerated (columnName, c) = false
        ∧ insertWidens (columnName, c) = true) := by
  have hauto : autoGeneratedFields t
      = (t.columns.filter isAutoGenerated).map (fun c => toCamelCase c.1) := by
    unfold autoGeneratedFields
    rw [foldl_pushIf_eq_filterMap isAutoGenerated (fun c => toCamelCase c.1) t.columns []]
    simp
  have hmods : insertFieldModsList t enums
      = (t.columns.filter (fun c => !isAutoGenerated c && insertWidens c)).map
          (insertModString enums) := by
    unfold insertFieldModsList
    rw [foldl_skipPush_eq_filterMap isAutoGenerated insertWidens
      (insertModString enums) t.columns []]
    simp
  refine ⟨hauto, hmods, ?_, ?_⟩
  · intro s hs
    rw [hmods] at hs
    obtain ⟨c, _, hc⟩ := List.mem_map.mp hs
    exact ⟨"    " ++ toCamelCase c.1 ++ ": "
      ++ addDefaultValue (generateBaseZodType c.2 enums) c.2, hc.symm⟩
  · intro columnName c hser hdef hnul hreq
    obtain ⟨v, hv, hvnow⟩ := hdef
    refine ⟨?_, ?_, ?_⟩
    · unfold generateBaseSchemaField
      simp [optBool] at hnul
      simp [optBool, hnul, hreq, String.append_assoc]
    · simp [isAutoGenerated, hser, hv, hvnow]
    · simp [insertWidens, hv]

/-- The `status` column of the repository's `users` table: enum type,
non-nullable, ordinary default `"pending"`, explicitly required. -/
def statusEnumCol : ColumnConfig :=
  ⟨⟨"user_status", none, none, none, some false, some (JsonValue.str "pending"),
    none, none, none, none⟩,
   some ⟨some true, none, none, none, none, none⟩⟩

/-- C9, witnessed: the `status` column stays required in the base schema
and qualifies as optional for the insert schema. -/
theorem c9_insert_derivation_witness :
    generateBaseSchemaField "status" statusEnumCol []
        = "  " ++ toCamelCase "status" ++ ": "
          ++ addDefaultValue (generateBaseZodType statusEnumCol []) statusEnumCol
      ∧ isAutoGenerated ("status", statusEnumCol) = false
      ∧ insertWidens ("status", statusEnumCol) = true :=
  (c9_insert_derivation ⟨"users", "Users", [("status", statusEnumCol)], none, none⟩ []).2.2.2
    "status" statusEnumCol (by decide)
    ⟨JsonValue.str "pending", rfl, by decide⟩ (by decide) (by decide)

/-! ## C1: determinism of the pipeline output -/

/-- A minimal valid table used to witness whole-artifact statements. -/
def miniUsersTable : TableConfig :=
  ⟨"users", "Users", [("id", serialIdCol)], none, none⟩

/-- C1, counterexample: two runs over byte-identical input at different
instants produce different bytes for the same artifact, because
`generateFileHeader` interpolates `new Date().toISOString()` into every
artifact's `Generated at:` line. -/
theorem c1_timestamp_counterexample :
    generateModelAggregation [] AggKind.schema "2025-01-01T00:00:00.000Z"
      ≠ generateModelAggregation [] AggKind.schema "2025-01-02T00:00:00.000Z" := by
  decide

/-- C1, amended: with the generation instant held fixed the output is a
function of the input alone; across two runs at different instants every
artifact family — aggregation barrels, per-table validation, storage and
extension-type files, and the three enum files — is byte-identical
except for the interpolated header: the same timestamp-free body follows
the header in both runs. -/
theorem c1_deterministic_modulo_header (tables : List TableConfig) (kind : AggKind)
    (t : TableConfig) (enums : EnumsConfig) (fullEnums : EnumsFullConfig)
    (allTables : List TableConfig) (now₁ now₂ : String) :
    (∃ body, generateModelAggregation tables kind now₁
        = generateFileHeader (aggDescription kind) now₁ ++ body
      ∧ generateModelAggregation tables kind now₂
        = generateFileHeader (aggDescription kind) now₂ ++ body)
    ∧ (validateTableConfig t.toRaw = Except.ok [] →
        ∃ body, generateTableValidation t enums now₁
            = Except.ok (generateFileHeader
                ("Zod validation schemas for " ++ t.tableName ++ " table") now₁ ++ body)
          ∧ generateTableValidation t enums now₂
            = Except.ok (generateFileHeader
                ("Zod validation schemas for " ++ t.tableName ++ " table") now₂ ++ body))
    ∧ (validateTableConfig t.toRaw = Except.ok [] →
        ∃ body, generateDrizzleTableSchema t enums now₁
            = Except.ok (generateFileHeader
                ("Drizzle schema for " ++ t.tableName ++ " table") now₁ ++ body)
          ∧ generateDrizzleTableSchema t enums now₂
            = Except.ok (generateFileHeader
                ("Drizzle schema for " ++ t.tableName ++ " table") now₂ ++ body))
    ∧ (validateTableConfig t.toRaw = Except.ok [] →
        ∃ body, generateTableTypes t enums allTables now₁
            = Except.ok (generateFileHeader
                ("TypeScript extension types for " ++ t.tableName ++ " table") now₁ ++ body)
          ∧ generateTableTypes t enums allTables now₂
            = Except.ok (generateFileHeader
                ("TypeScript extension types for " ++ t.tableName ++ " table") now₂ ++ body))
    ∧ (∃ body, generateEnumsFile fullEnums now₁
          = generateFileHeader "Drizzle enum definitions" now₁ ++ body
        ∧ generateEnumsFile fullEnums now₂
          = generateFileHeader "Drizzle enum definitions" now₂ ++ body)
    ∧ (∃ body, generateEnumsValidation fullEnums now₁
          = generateFileHeader "Zod enum validation schemas" now₁ ++ body
        ∧ generateEnumsValidation fullEnums now₂
          = generateFileHeader "Zod enum validation schemas" now₂ ++ body)
    ∧ (∃ body, generateEnumsTypes fullEnums now₁
          = generateFileHeader "TypeScript enum extension types" now₁ ++ body
        ∧ generateEnumsTypes fullEnums now₂
          = generateFileHeader "TypeScript enum extension types" now₂ ++ body) := by
  refine ⟨?_, ?_, ?_, ?_, ?_, ?_, ?_⟩
  · refine ⟨"// Export all enum " ++ kind.text ++ "\n"
      ++ "export * from './enums/" ++ kind.text ++ "';\n\n"
      ++ "// Export all table " ++ kind.text ++ "\n"
      ++ String.join
          (tables.map (fun tb =>
            "export * from './" ++ toSingularCamelCase tb.tableName ++ "/" ++ kind.text ++ "';\n")),
      ?_, ?_⟩ <;>
      simp only [generateModelAggregation, String.append_assoc]
  · intro hval
    refine ⟨validationFileBody t enums, ?_, ?_⟩ <;>
      simp [generateTableValidation, hval]
  · intro hval
    refine ⟨schemaFileBody t enums, ?_, ?_⟩ <;>
      simp [generateDrizzleTableSchema, hval]
  · intro hval
    refine ⟨typesFileBody t allTables, ?_, ?_⟩ <;>
      simp [generateTableTypes, hval]
  · exact ⟨enumsSchemaFileBody fullEnums, rfl, rfl⟩
  · exact ⟨enumsValidationFileBody fullEnums, rfl, rfl⟩
  · exact ⟨enumsTypesFileBody fullEnums, rfl, rfl⟩

/-- C1, amended, witnessed at a concrete table and two concrete instants,
exercising every validation-gated artifact. -/
theorem c1_deterministic_modulo_header_witness :
    (validateTableConfig miniUsersTable.toRaw = Except.ok [])
    ∧ (∃ body, generateTableValidation miniUsersTable [] "2025-01-01T00:00:00.000Z"
          = Except.ok (generateFileHeader
              ("Zod validation schemas for " ++ miniUsersTable.tableName ++ " table")
              "2025-01-01T00:00:00.000Z" ++ body)
        ∧ generateTableValidation miniUsersTable [] "2025-01-02T00:00:00.000Z"
          = Except.ok (generateFileHeader
              ("Zod validation schemas for " ++ miniUsersTable.tableName ++ " table")
              "2025-01-02T00:00:00.000Z" ++ body))
    ∧ (∃ body, generateDrizzleTableSchema miniUsersTable [] "2025-01-01T00:00:00.000Z"
          = Except.ok (generateFileHeader
              ("Drizzle schema for " ++ miniUsersTable.tableName ++ " table")
              "2025-01-01T00:00:00.000Z" ++ body)
        ∧ generateDrizzleTableSchema miniUsersTable [] "2025-01-02T00:00:00.000Z"
          = Except.ok (generateFileHeader
              ("Drizzle schema for " ++ miniUsersTable.tableName ++ " table")
              "2025-01-02T00:00:00.000Z" ++ body))
    ∧ (∃ body, generateTableTypes miniUsersTable [] [miniUsersTable] "2025-01-01T00:00:00.000Z"
          = Except.ok (generateFileHeader
              ("TypeScript extension types for " ++ miniUsersTable.tableName ++ " table")
              "2025-01-01T00:00:00.000Z" ++ body)
        ∧ generateTableTypes miniUsersTable [] [miniUsersTable] "2025-01-02T00:00:00.000Z"
          = Except.ok (generateFileHeader
              ("TypeScript extension types for " ++ miniUsersTable.tableName ++ " table")
              "2025-01-02T00:00:00.000Z" ++ body)) :=
  have h := c1_deterministic_modulo_header [] AggKind.schema miniUsersTable [] []
    [miniUsersTable] "2025-01-01T00:00:00.000Z" "2025-01-02T00:00:00.000Z"
  ⟨by decide, h.2.1 (by decide), h.2.2.1 (by decide), h.2.2.2.1 (by decide)⟩

/-! ## C3: the incoming-relation exclusion rule -/

/-- An integer column whose foreign key targets the `users` table. -/
def ownerRefCol : ColumnConfig :=
  ⟨⟨"integer", none, none, none, some false, none, none, none, none,
    some ⟨"users", "id", none, none⟩⟩, none⟩

/-- A second, distinct table descriptor that carries the same
`tableName` as `miniUsersTable` and references that name. -/
def duplicateUsersTable : TableConfig :=
  ⟨"users", "Shadow users", [("owner_id", ownerRefCol)], none, none⟩

/-- C3, counterexample: `duplicateUsersTable` is a distinct table value
with a name equal to `miniUsersTable`'s and a foreign key targeting that
name, yet the incoming scan for `miniUsersTable` produces no relation at
all — the exclusion compares table names (`otherTable.tableName ===
currentTableName`), not table identity, so an equally-named distinct
table is skipped rather than scanned. -/
theorem c3_name_equality_counterexample :
    duplicateUsersTable ≠ miniUsersTable
    ∧ duplicateUsersTable.tableName = miniUsersTable.tableName
    ∧ duplicateUsersTable.columns.countP (fun c =>
        match c.2.dbConstraints.references with
        | some r => r.table == miniUsersTable.tableName
        | none => false) = 1
    ∧ (generateReverseRelations miniUsersTable [miniUsersTable, duplicateUsersTable]).1 = [] := by
  refine ⟨by decide, by decide, by decide, by decide⟩

/-- C3, amended: the exclusion during incoming-relation scanning is by
table name — every table whose `tableName` equals the scanned-for
table's is skipped (hence a self-referencing table contributes no
self-loop, but a distinct table with an equal name is skipped too),
while any table with a different name, including one sharing a mere
prefix, is scanned in full. -/
theorem c3_exclusion_is_by_name (t : TableConfig) (allTables : List TableConfig) :
    generateReverseRelations t allTables
      = generateReverseRelations t
          (allTables.filter (fun other => other.tableName ≠ t.tableName))
    ∧ (generateReverseRelations t [t]).1 = []
    ∧ (∀ (other : TableConfig) (rest : List TableConfig),
        other.tableName ≠ t.tableName →
        reverseRelationHits t (other :: rest)
          = other.columns.filterMap (fun c =>
              match c.2.dbConstraints.references with
              | some r => if r.table = t.tableName then some other.tableName else none
              | none => none)
            ++ reverseRelationHits t rest) := by
  refine ⟨?_, ?_, ?_⟩
  · unfold generateReverseRelations reverseRelationHits
    rw [List.filter_filter]
    simp
  · simp [generateReverseRelations, reverseRelationHits]
  · intro other rest hne
    unfold reverseRelationHits
    simp [List.filter_cons, hne]

/-- C3, amended, witnessed: a table whose name shares a prefix with the
scanned table's name is still scanned. -/
theorem c3_exclusion_is_by_name_witness :
    (duplicateUsersTable.tableName ≠ ("users_archive" : String))
    ∧ reverseRelationHits ⟨"users_archive", "Archive", [], none, none⟩
        (duplicateUsersTable :: [])
      = duplicateUsersTable.columns.filterMap (fun c =>
          match c.2.dbConstraints.references with
          | some r => if r.table = ("users_archive" : String)
                      then some duplicateUsersTable.tableName else none
          | none => none)
        ++ reverseRelationHits ⟨"users_archive", "Archive", [], none, none⟩ [] :=
  ⟨by decide,
   (c3_exclusion_is_by_name ⟨"users_archive", "Archive", [], none, none⟩ []).2.2
     duplicateUsersTable [] (by decide)⟩

/-! ## C2: round-trip consistency of the relationship resolution -/

/-- Does a column's declared foreign key target the named table? -/
def fkTargets (targetName : String) (c : String × ColumnConfig) : Bool :=
  match c.2.dbConstraints.references with
  | some r => r.table == targetName
  | none => false

theorem revhits_inner_eq_replicate (targetName nm : String)
    (l : List (String × ColumnConfig)) :
    l.filterMap (fun c =>
      match c.2.dbConstraints.references with
      | some r => if r.table = targetName then some nm else none
      | none => none)
    = List.replicate (l.countP (fkTargets targetName)) nm := by
  induction l with
  | nil => simp
  | cons x xs ih =>
    cases hr : x.2.dbConstraints.references with
    | none =>
      simp [List.filterMap_cons, hr, List.countP_cons, fkTargets, ih]
    | some r =>
      by_cases ht : r.table = targetName <;>
        simp [List.filterMap_cons, hr, ht, List.countP_cons, fkTargets, ih,
          List.replicate_succ]

theorem revhits_count (t A : TableConfig) (ts : List TableConfig)
    (hAB : A.tableName ≠ t.tableName)
    (hsame : ∀ o ∈ ts, o.tableName = A.tableName → o = A)
    (hnoc : ∀ o ∈ ts, o.tableName ≠ A.tableName →
      reverseRelationEntry o.tableName ≠ reverseRelationEntry A.tableName) :
    ((reverseRelationHits t ts).map reverseRelationEntry).count
        (reverseRelationEntry A.tableName)
      = ts.countP (fun o => o.tableName == A.tableName)
          * A.columns.countP (fkTargets t.tableName) := by
  induction ts with
  | nil => simp [reverseRelationHits]
  | cons o rest ih =>
    have hsame' : ∀ o' ∈ rest, o'.tableName = A.tableName → o' = A :=
      fun o' h' => hsame o' (List.mem_cons_of_mem _ h')
    have hnoc' : ∀ o' ∈ rest, o'.tableName ≠ A.tableName →
        reverseRelationEntry o'.tableName ≠ reverseRelationEntry A.tableName :=
      fun o' h' => hnoc o' (List.mem_cons_of_mem _ h')
    by_cases hskip : o.tableName = t.tableName
    · have hhits : reverseRelationHits t (o :: rest) = reverseRelationHits t rest := by
        simp [reverseRelationHits, List.filter_cons, hskip]
      have hoA : (o.tableName == A.tableName) = false := by
        rw [beq_eq_false_iff_ne, hskip]
        exact fun h => hAB h.symm
      rw [hhits, ih hsame' hnoc', List.countP_cons, hoA]
      simp
    · have hhits : reverseRelationHits t (o :: rest)
          = o.columns.filterMap (fun c =>
              match c.2.dbConstraints.references with
              | some r => if r.table = t.tableName then some o.tableName else none
              | none => none)
            ++ reverseRelationHits t rest := by
        simp [reverseRelationHits, List.filter_cons, hskip]
      rw [hhits, revhits_inner_eq_replicate, List.map_append, List.map_replicate,
        List.count_append, ih hsame' hnoc', List.countP_cons]
      by_cases hoA : o.tableName = A.tableName
      · have hoeq : o = A := hsame o (List.mem_cons_self o rest) hoA
        subst hoeq
        simp [List.count_replicate, Nat.add_mul]
        ring
      · have hne : reverseRelationEntry o.tableName ≠ reverseRelationEntry A.tableName :=
          hnoc o (List.mem_cons_self o rest) hoA
        have hbeq : (reverseRelationEntry o.tableName
            == reverseRelationEntry A.tableName) = false :=
          beq_eq_false_iff_ne.mpr hne
        have hbeq' : (o.tableName == A.tableName) = false :=
          beq_eq_false_iff_ne.mpr hoA
        rw [List.count_replicate, hbeq, hbeq']
        simp

theorem fk_entry_count (targetName : String) (cols : List (String × ColumnConfig))
    (hinj : ∀ c ∈ cols, ∀ r, c.2.dbConstraints.references = some r →
      fkRelationEntry r.table = fkRelationEntry targetName → r.table = targetName) :
    ((cols.filterMap (fun c => c.2.dbConstraints.references)).map
      (fun r => fkRelationEntry r.table)).count (fkRelationEntry targetName)
    = cols.countP (fkTargets targetName) := by
  induction cols with
  | nil => simp
  | cons x xs ih =>
    have hinj' : ∀ c ∈ xs, ∀ r, c.2.dbConstraints.references = some r →
        fkRelationEntry r.table = fkRelationEntry targetName → r.table = targetName :=
      fun c hc => hinj c (List.mem_cons_of_mem _ hc)
    cases hr : x.2.dbConstraints.references with
    | none =>
      simp [List.filterMap_cons, hr, List.countP_cons, fkTargets, ih hinj']
    | some r =>
      by_cases ht : r.table = targetName
      · simp [List.filterMap_cons, hr, List.countP_cons, List.count_cons, fkTargets,
          ht, ih hinj']
      · have hne : fkRelationEntry r.table ≠ fkRelationEntry targetName :=
          fun hEq => ht (hinj x (List.mem_cons_self x xs) r hr hEq)
        simp [List.filterMap_cons, hr, List.countP_cons, List.count_cons, fkTargets,
          ht, hne, ih hinj']

/-- C2, amended: when table `A` carries exactly one foreign-key column
targeting table `B` (distinct by name), and — the proviso the
counterexample forces — the loaded set is well formed (a single table
bears `A`'s name, and no differently-named table collides with `A`'s
derived relation strings), the incoming resolution for `B` over all
tables contains exactly one entry naming `A` — camel-cased and pluralized
by appending `s` unless it already ends in `s` — the outgoing resolution
for `A` contains exactly one entry naming `B`, and the incoming side is
independent of any relationship declarations on `B` itself. -/
theorem c2_relation_roundtrip (A B : TableConfig) (allTables : List TableConfig)
    (hAB : A.tableName ≠ B.tableName)
    (hone : A.columns.countP (fkTargets B.tableName) = 1)
    (hsame : ∀ o ∈ allTables, o.tableName = A.tableName → o = A)
    (hcount : allTables.countP (fun o => o.tableName == A.tableName) = 1)
    (hnoc : ∀ o ∈ allTables, o.tableName ≠ A.tableName →
      reverseRelationEntry o.tableName ≠ reverseRelationEntry A.tableName)
    (hinj : ∀ c ∈ A.columns, ∀ r, c.2.dbConstraints.references = some r →
      fkRelationEntry r.table = fkRelationEntry B.tableName → r.table = B.tableName) :
    (generateReverseRelations B allTables).1.count (reverseRelationEntry A.tableName) = 1
    ∧ (generateForeignKeyRelations A).1.count (fkRelationEntry B.tableName) = 1
    ∧ ∀ rels, generateReverseRelations { B with relationships := rels } allTables
        = generateReverseRelations B allTables := by
  refine ⟨?_, ?_, ?_⟩
  · show ((reverseRelationHits B allTables).map reverseRelationEntry).count
      (reverseRelationEntry A.tableName) = 1
    rw [revhits_count B A allTables hAB hsame hnoc, hcount, hone]
  · show ((A.columns.filterMap (fun c => c.2.dbConstraints.references)).map
      (fun r => fkRelationEntry r.table)).count (fkRelationEntry B.tableName) = 1
    rw [fk_entry_count B.tableName A.columns hinj, hone]
  · intro rels
    rfl

/-- The target side of the specification's scenario: a `guests` table
that declares no relationships of its own. -/
def guestsTable : TableConfig :=
  ⟨"guests", "Guests", [("id", serialIdCol)], none, none⟩

/-- A foreign-key column targeting `guests`. -/
def guestRefCol : ColumnConfig :=
  ⟨⟨"integer", none, none, none, some false, none, none, none, none,
    some ⟨"guests", "id", none, none⟩⟩, none⟩

/-- The source side of the scenario: `bookings` with a single
`guest_id` foreign key. -/
def bookingsTable : TableConfig :=
  ⟨"bookings", "Bookings", [("id", serialIdCol), ("guest_id", guestRefCol)], none, none⟩

/-- C2, witnessed on the `bookings` → `guests` scenario: exactly one
incoming `bookings` entry for `guests`, exactly one outgoing `guests`
entry for `bookings`, with no relationship declaration on `guests`. -/
theorem c2_relation_roundtrip_witness :
    (generateReverseRelations guestsTable [guestsTable, bookingsTable]).1.count
        (reverseRelationEntry bookingsTable.tableName) = 1
    ∧ (generateForeignKeyRelations bookingsTable).1.count
        (fkRelationEntry guestsTable.tableName) = 1
    ∧ generateReverseRelations { guestsTable with relationships := none }
        [guestsTable, bookingsTable]
      = generateReverseRelations guestsTable [guestsTable, bookingsTable] :=
  have h := c2_relation_roundtrip bookingsTable guestsTable [guestsTable, bookingsTable]
    (by decide) (by decide) (by decide) (by decide) (by decide) (by decide)
  ⟨h.1, h.2.1, h.2.2 none⟩

/-- A `user` table with a single foreign key to `guests`. -/
def userRefTable : TableConfig :=
  ⟨"user", "User", [("guest_id", guestRefCol)], none, none⟩

/-- A distinct `users` table, also with a foreign key to `guests`. -/
def usersRefTable : TableConfig :=
  ⟨"users", "Users", [("guest_id", guestRefCol)], none, none⟩

/-- C2, counterexample: the distinct, distinctly-named tables `user` and
`users` derive the identical incoming entry string (camel-casing plus
`s`-pluralization collide, and both singularize to the same Pascal type),
so with both in the loaded set the incoming resolution for `guests`
contains two entries naming `user` even though `user` has exactly one
foreign-key column targeting `guests` — the claim without a
name-injectivity proviso is false. -/
theorem c2_name_collision_counterexample :
    userRefTable ≠ usersRefTable
    ∧ userRefTable.tableName ≠ usersRefTable.tableName
    ∧ userRefTable.columns.countP (fkTargets guestsTable.tableName) = 1
    ∧ reverseRelationEntry userRefTable.tableName
        = reverseRelationEntry usersRefTable.tableName
    ∧ (generateReverseRelations guestsTable
        [guestsTable, userRefTable, usersRefTable]).1.count
        (reverseRelationEntry userRefTable.tableName) = 2 := by
  refine ⟨by decide, by decide, by decide, by decide, by decide⟩
